import Mathlib

/-!
Verification of the DiffDraft commit-message generation workflow
(src/src/sidebarProvider.ts), as a shallow embedding.

External collaborators are modelled as explicit parameters:
the secret store as an `Option String` state value, the git provider as a
`Repo` structure whose diff operations are `String → Except Unit String`
(an `Except.error` models a rejected promise), and the remote HTTP call as
an oracle `String → String → HttpResponse` applied to the resolved key and
the aggregated diff.  "The workflow issues zero remote calls" is expressed
as constancy of the result over the remote oracle, and likewise for diff
calls over the diff operations.
-/

namespace DiffDraft

/-- The JS `String.prototype.trim()`: drop leading and trailing
whitespace.  Defined structurally on the underlying character list so that
it evaluates by `rfl` (the library `String.trim` uses well-founded
recursion and does not reduce definitionally). -/
def trimStr (s : String) : String :=
  ⟨((s.data.dropWhile Char.isWhitespace).reverse.dropWhile Char.isWhitespace).reverse⟩

/-- The parsed `error` field of a Groq response body: `error.message` is
`some m` when the field is present (JS truthiness of the string is handled
at use sites). -/
structure GroqError where
  message : Option String
deriving DecidableEq, Repr

/-- The parsed JSON body of a Groq response.  `error` is `some _` exactly
when `data.error` is a truthy object; `content` models
`data.choices?.[0]?.message?.content`, `none` when any link is missing. -/
structure GroqBody where
  error : Option GroqError
  content : Option String
deriving DecidableEq, Repr

/-- An HTTP response from the remote endpoint.  `body` is
`Except.error msg` when `response.json()` rejects (with that message),
`Except.ok b` when it parses. -/
structure HttpResponse where
  status : Nat
  statusText : String
  body : Except String GroqBody
deriving Repr

/-- `response.ok` of the fetch API: status in the range 200..299. -/
def respOk (r : HttpResponse) : Bool :=
  decide (200 ≤ r.status) && decide (r.status < 300)

/-- The fixed prompt wrapper of `callGroq`: instruction text followed by
the aggregated diff. -/
def groqPrompt (diff : String) : String :=
  "You are a senior software architect. Analyze the FOLLOWING code changes deeply and generate a professional Git commit message.\n"
  ++ "GOAL: Provide a readable, insightful, and sufficiently descriptive commit message.\n"
  ++ "INSTRUCTIONS: Use Conventional Commits (<type>(<scope>): <subject>). Types: feat, fix, refactor, chore, docs, style, test, ci, build. Output: Return ONLY raw text.\n"
  ++ "CHANGES TO ANALYZE:\n" ++ diff

/-- Response handling of `callGroq` (sidebarProvider.ts lines 350-376), in
source order: non-ok status fails with the body error message when present
and truthy, else the generic "HTTP status: statusText" message; an ok
status first propagates a body-parse failure, then fails on a truthy
`data.error` with its message (or a default), then fails on missing or
whitespace-only content, and otherwise returns the trimmed content. -/
def handleGroqResponse (r : HttpResponse) : Except String String :=
  if respOk r then
    match r.body with
    | .error parseMsg => .error parseMsg
    | .ok data =>
      match data.error with
      | some e =>
        .error (match e.message with
          | some m => if m = "" then "API returned an error." else m
          | none => "API returned an error.")
      | none =>
        match data.content with
        | some c => if trimStr c = "" then .error "API returned empty response." else .ok (trimStr c)
        | none => .error "API returned empty response."
  else
    .error (match r.body with
      | .ok data =>
        match data.error with
        | some e =>
          match e.message with
          | some m => if m = "" then "HTTP " ++ toString r.status ++ ": " ++ r.statusText else m
          | none => "HTTP " ++ toString r.status ++ ": " ++ r.statusText
        | none => "HTTP " ++ toString r.status ++ ": " ++ r.statusText
      | .error _ => "HTTP " ++ toString r.status ++ ": " ++ r.statusText)

/-- `callGroq`: issue the request (modelled by the `remote` oracle applied
to the bearer key and the prompt-wrapped diff) and handle the response. -/
def callGroq (remote : String → String → HttpResponse) (apiKey diff : String) :
    Except String String :=
  handleGroqResponse (remote apiKey (groqPrompt diff))

/-- The git repository handle: the two change lists (each change reduced
to its `uri.fsPath`) and the two diff operations. -/
structure Repo where
  indexChanges : List String
  workingTreeChanges : List String
  diffIndexWithHEAD : String → Except Unit String
  diffWithHEAD : String → Except Unit String

/-- Change selection (sidebarProvider.ts lines 130-136 and 256-263):
staged (index) changes when non-empty, else working-tree changes, with the
origin flag. -/
def selectChanges (repo : Repo) : List String × Bool :=
  if repo.indexChanges.length = 0 then (repo.workingTreeChanges, false)
  else (repo.indexChanges, true)

/-- The diff-collection loop (lines 164-171 and 276-285): for each change
in provider order, fetch the diff with the operation matching the origin
and append a file-marker line plus the diff to the accumulator; any
rejected diff aborts the whole loop. -/
def collectDiffs (repo : Repo) (isStaged : Bool) :
    List String → String → Except Unit String
  | [], acc => .ok acc
  | p :: rest, acc =>
    match (if isStaged then repo.diffIndexWithHEAD p else repo.diffWithHEAD p) with
    | .error e => .error e
    | .ok diff => collectDiffs repo isStaged rest (acc ++ "\n--- File: " ++ p ++ " ---\n" ++ diff)

/-- Terminal outcomes of one workflow invocation. -/
inductive Outcome where
  | missingKey
  | apiKeyRequired
  | noRepo
  | noChanges
  | diffReadFailure
  | emptyDiff
  | remoteError (msg : String)
  | ok (result : String)
deriving DecidableEq, Repr

/-- The user-facing message of a caught remote error
("Groq API Error: " + (error.message or a default)). -/
def groqErrorText (msg : String) : String :=
  "Groq API Error: " ++ (if msg = "" then "Unknown error occurred." else msg)

/-- Key resolution of the panel flow (lines 239-240):
`overrideKey?.trim() ? overrideKey : apiKey`. -/
def finalApiKeyPanel (env : Option String) (apiKey : String) : String :=
  match env with
  | some k => if trimStr k = "" then apiKey else k
  | none => apiKey

/-- The panel flow `generateCommitMessage` (lines 238-314): resolve the
key against the environment override, reject an empty key, select changes,
collect diffs, reject a whitespace-only aggregate, and call the remote
endpoint once. -/
def generateCommitMessage (env : Option String) (apiKey : String)
    (repo : Option Repo) (remote : String → String → HttpResponse) : Outcome :=
  let finalApiKey := finalApiKeyPanel env apiKey
  if finalApiKey = "" then .missingKey
  else
    match repo with
    | none => .noRepo
    | some rp =>
      let sel := selectChanges rp
      if sel.1.length = 0 then .noChanges
      else
        match collectDiffs rp sel.2 sel.1 "" with
        | .error _ => .diffReadFailure
        | .ok fullDiff =>
          if trimStr fullDiff = "" then .emptyDiff
          else
            match callGroq remote finalApiKey fullDiff with
            | .ok result => .ok result
            | .error msg => .remoteError (groqErrorText msg)

/-- The shared core `generateCommitMessageWithKey` (lines 123-236), after
a key has been resolved: identical change selection, diff collection,
whitespace check and remote call as the panel flow, routing the result to
the SCM input box. -/
def generateCommitMessageWithKey (apiKey : String) (repo : Option Repo)
    (remote : String → String → HttpResponse) : Outcome :=
  match repo with
  | none => .noRepo
  | some rp =>
    let sel := selectChanges rp
    if sel.1.length = 0 then .noChanges
    else
      match collectDiffs rp sel.2 sel.1 "" with
      | .error _ => .diffReadFailure
      | .ok fullDiff =>
        if trimStr fullDiff = "" then .emptyDiff
        else
          match callGroq remote apiKey fullDiff with
          | .ok result => .ok result
          | .error msg => .remoteError (groqErrorText msg)

/-- `getStoredApiKey` (lines 103-110): a failed read is `none`; an absent,
empty or whitespace-only stored value is `none`; otherwise the trimmed
stored value. -/
def getStoredApiKey (readOk : Bool) (store : Option String) : Option String :=
  if readOk then
    match store with
    | some k => if trimStr k = "" then none else some (trimStr k)
    | none => none
  else none

/-- `storeApiKey` (lines 112-121): trim the input; skip the write when the
trimmed value is empty; a failed write leaves the store unchanged. -/
def storeApiKey (writeOk : Bool) (store : Option String) (key : String) :
    Option String :=
  let trimmedKey := trimStr key
  if trimmedKey = "" then store
  else if writeOk then some trimmedKey else store

/-- Key resolution of the toolbar flow (lines 76-78):
`overrideKey?.trim() ? overrideKey : storedKey`. -/
def apiKeySCM (env : Option String) (storedKey : Option String) : Option String :=
  match env with
  | some k => if trimStr k = "" then storedKey else some k
  | none => storedKey

/-- Inputs of one toolbar invocation: the environment override, the secret
store with its read and write reliability, the prompt answer
(`none` = cancelled), and the repository handle. -/
structure ScmInput where
  env : Option String
  readOk : Bool
  writeOk : Bool
  store : Option String
  promptInput : Option String
  repo : Option Repo

/-- The toolbar flow `generateCommitMessageForSCM` (lines 75-101): resolve
the key from the override or the stored value; when neither is available,
prompt, abort on a cancelled or empty answer, and otherwise persist the
entered key before running the shared core.  Returns the outcome and the
final secret-store contents. -/
def generateCommitMessageForSCM (i : ScmInput)
    (remote : String → String → HttpResponse) : Outcome × Option String :=
  let storedKey := getStoredApiKey i.readOk i.store
  match apiKeySCM i.env storedKey with
  | some apiKey => (generateCommitMessageWithKey apiKey i.repo remote, i.store)
  | none =>
    match i.promptInput with
    | none => (.apiKeyRequired, i.store)
    | some inputKey =>
      if inputKey = "" then (.apiKeyRequired, i.store)
      else
        let store2 := storeApiKey i.writeOk i.store inputKey
        (generateCommitMessageWithKey inputKey i.repo remote, store2)

/-- Terminal outcomes of the commit step. -/
inductive CommitOutcome where
  | emptyMessage
  | noRepo
  | noStaged
  | committed (msg : String)
  | commitFailed (msg : String)
deriving DecidableEq, Repr

/-- `commitChanges` (lines 378-407): reject an empty or whitespace-only
message, reject when the provider reports zero staged changes, otherwise
invoke the provider commit operation with the trimmed message. -/
def commitChanges (message : String) (repo : Option Repo)
    (commit : String → Except String Unit) : CommitOutcome :=
  if trimStr message = "" then .emptyMessage
  else
    match repo with
    | none => .noRepo
    | some rp =>
      if rp.indexChanges.length = 0 then .noStaged
      else
        match commit (trimStr message) with
        | .ok _ => .committed (trimStr message)
        | .error e => .commitFailed e

/-- The aggregation shape the spec describes: the concatenation, over the
changes in order, of a file-marker line followed by that file diff. -/
def aggregatedDiffSpec (f : String → String) : List String → String
  | [] => ""
  | p :: rest => "\n--- File: " ++ p ++ " ---\n" ++ f p ++ aggregatedDiffSpec f rest

/-- The trimming of a character list, the list-level core of `trimStr`. -/
def trimChars (l : List Char) : List Char :=
  ((l.dropWhile Char.isWhitespace).reverse.dropWhile Char.isWhitespace).reverse

/-- Concrete repository: one staged change `a.ts` whose index diff is
`+x` (spec scenario A). -/
def exRepoA : Repo where
  indexChanges := ["a.ts"]
  workingTreeChanges := []
  diffIndexWithHEAD := fun _ => .ok "+x"
  diffWithHEAD := fun _ => .error ()

/-- Concrete repository: staged `a.ts` together with a non-empty
working-tree list, to exercise staged priority. -/
def exRepoMix : Repo where
  indexChanges := ["a.ts"]
  workingTreeChanges := ["c.ts"]
  diffIndexWithHEAD := fun _ => .ok "+x"
  diffWithHEAD := fun _ => .ok "+z"

/-- Concrete repository: nothing staged, one working-tree change. -/
def exRepoWT : Repo where
  indexChanges := []
  workingTreeChanges := ["b.ts"]
  diffIndexWithHEAD := fun _ => .error ()
  diffWithHEAD := fun _ => .ok "+y"

/-- Concrete repository: both change lists empty (spec scenario B). -/
def exRepoEmpty : Repo where
  indexChanges := []
  workingTreeChanges := []
  diffIndexWithHEAD := fun _ => .error ()
  diffWithHEAD := fun _ => .error ()

/-- Concrete repository: one staged change whose diff operation fails. -/
def exRepoFail : Repo where
  indexChanges := ["a.ts"]
  workingTreeChanges := []
  diffIndexWithHEAD := fun _ => .error ()
  diffWithHEAD := fun _ => .ok "+x"

/-- Concrete repository: one staged binary file whose text diff is empty
(spec scenario C). -/
def exRepoBin : Repo where
  indexChanges := ["bin.png"]
  workingTreeChanges := []
  diffIndexWithHEAD := fun _ => .ok ""
  diffWithHEAD := fun _ => .error ()

/-- Concrete response: HTTP 200 whose generated text is
`" feat: add x "` (spec scenario A). -/
def exRespOkA : HttpResponse where
  status := 200
  statusText := "OK"
  body := .ok { error := none, content := some " feat: add x " }

/-- Concrete response: HTTP 403 with body error message `invalid key`
(spec scenario D). -/
def exResp403 : HttpResponse where
  status := 403
  statusText := "Forbidden"
  body := .ok { error := some { message := some "invalid key" }, content := none }

/-- Concrete response: HTTP 500 with the same body error message as
`exResp403`. -/
def exResp500 : HttpResponse where
  status := 500
  statusText := "Internal Server Error"
  body := .ok { error := some { message := some "invalid key" }, content := none }

theorem dropWhile_head_false {p : Char → Bool} {l : List Char} {a : Char} {t : List Char}
    (h : l.dropWhile p = a :: t) : p a = false := by
  have w : l.dropWhile p ≠ [] := by simp [h]
  have hh := List.head_dropWhile_not p l w
  simp only [h, List.head_cons] at hh
  exact hh

theorem dropWhile_idem (p : Char → Bool) (l : List Char) :
    (l.dropWhile p).dropWhile p = l.dropWhile p := by
  cases h : l.dropWhile p with
  | nil => simp
  | cons a t => rw [List.dropWhile_cons, dropWhile_head_false h]; simp

theorem trimChars_idem (l : List Char) : trimChars (trimChars l) = trimChars l := by
  unfold trimChars
  have h1 : ((((l.dropWhile Char.isWhitespace).reverse.dropWhile Char.isWhitespace).reverse).dropWhile Char.isWhitespace)
      = ((l.dropWhile Char.isWhitespace).reverse.dropWhile Char.isWhitespace).reverse := by
    cases hXr : ((l.dropWhile Char.isWhitespace).reverse.dropWhile Char.isWhitespace).reverse with
    | nil => simp
    | cons a t =>
      have hpre : ((l.dropWhile Char.isWhitespace).reverse.dropWhile Char.isWhitespace).reverse
          <+: l.dropWhile Char.isWhitespace := by
        have hs : (l.dropWhile Char.isWhitespace).reverse.dropWhile Char.isWhitespace
            <:+ (l.dropWhile Char.isWhitespace).reverse := List.dropWhile_suffix _
        have := List.reverse_prefix.2 hs
        simpa using this
      rw [hXr] at hpre
      cases hd1 : l.dropWhile Char.isWhitespace with
      | nil => rw [hd1] at hpre; simp at hpre
      | cons b u =>
        have hb : Char.isWhitespace b = false := dropWhile_head_false hd1
        rw [hd1] at hpre
        have hab : a = b := (List.cons_prefix_cons.1 hpre).1
        rw [List.dropWhile_cons, hab, hb]
        simp
  rw [h1, List.reverse_reverse, dropWhile_idem]

theorem trimStr_eq_trimChars (s : String) : trimStr s = ⟨trimChars s.data⟩ := rfl

theorem trimStr_idem (s : String) : trimStr (trimStr s) = trimStr s :=
  congrArg String.mk (trimChars_idem s.data)

theorem trimStr_ne_empty {k : String} (h : trimStr k ≠ "") : k ≠ "" := by
  intro he
  subst he
  exact h rfl

theorem collectDiffs_all_ok (rp : Repo) (isStaged : Bool) (f : String → String)
    (l : List String) (acc : String)
    (h : ∀ p ∈ l, (if isStaged then rp.diffIndexWithHEAD p else rp.diffWithHEAD p) = Except.ok (f p)) :
    collectDiffs rp isStaged l acc = .ok (acc ++ aggregatedDiffSpec f l) := by
  induction l generalizing acc with
  | nil => simp [collectDiffs, aggregatedDiffSpec]
  | cons p rest ih =>
    have hp := h p (List.mem_cons_self p rest)
    simp only [collectDiffs, hp]
    rw [ih _ (fun q hq => h q (List.mem_cons_of_mem p hq))]
    simp [aggregatedDiffSpec, String.append_assoc]

theorem collectDiffs_error_of_mem (rp : Repo) (isStaged : Bool)
    (l : List String) (acc : String) (p : String) (hp : p ∈ l)
    (hf : (if isStaged then rp.diffIndexWithHEAD p else rp.diffWithHEAD p) = .error ()) :
    collectDiffs rp isStaged l acc = .error () := by
  induction l generalizing acc with
  | nil => cases hp
  | cons q rest ih =>
    rcases List.mem_cons.1 hp with h1 | h2
    · subst h1
      simp only [collectDiffs, hf]
    · cases hq : (if isStaged then rp.diffIndexWithHEAD q else rp.diffWithHEAD q) with
      | error e => cases e; simp only [collectDiffs, hq]
      | ok d => simp only [collectDiffs, hq]; exact ih _ h2

theorem collectDiffs_staged_congr (rp rp' : Repo)
    (h : rp.diffIndexWithHEAD = rp'.diffIndexWithHEAD) (l : List String) (acc : String) :
    collectDiffs rp true l acc = collectDiffs rp' true l acc := by
  induction l generalizing acc with
  | nil => rfl
  | cons p rest ih =>
    simp only [collectDiffs, if_true, h]
    cases rp'.diffIndexWithHEAD p with
    | error e => rfl
    | ok d => exact ih _

theorem collectDiffs_workingTree_congr (rp rp' : Repo)
    (h : rp.diffWithHEAD = rp'.diffWithHEAD) (l : List String) (acc : String) :
    collectDiffs rp false l acc = collectDiffs rp' false l acc := by
  induction l generalizing acc with
  | nil => rfl
  | cons p rest ih =>
    simp only [collectDiffs, if_false, h]
    cases rp'.diffWithHEAD p with
    | error e => rfl
    | ok d => exact ih _

theorem generateCommitMessage_eq_withKey (env : Option String) (apiKey : String)
    (repo : Option Repo) (remote : String → String → HttpResponse)
    (h : finalApiKeyPanel env apiKey ≠ "") :
    generateCommitMessage env apiKey repo remote =
      generateCommitMessageWithKey (finalApiKeyPanel env apiKey) repo remote := by
  simp [generateCommitMessage, generateCommitMessageWithKey, if_neg h]

theorem withKey_noChanges (key : String) (rp : Repo)
    (remote : String → String → HttpResponse)
    (h1 : rp.indexChanges = []) (h2 : rp.workingTreeChanges = []) :
    generateCommitMessageWithKey key (some rp) remote = .noChanges := by
  simp [generateCommitMessageWithKey, selectChanges, h1, h2]

theorem withKey_of_collect_error (key : String) (rp : Repo)
    (remote : String → String → HttpResponse)
    (hfail : collectDiffs rp (selectChanges rp).2 (selectChanges rp).1 "" = .error ()) :
    generateCommitMessageWithKey key (some rp) remote = .diffReadFailure := by
  have hne : (selectChanges rp).1 ≠ [] := by
    intro h
    rw [h] at hfail
    simp [collectDiffs] at hfail
  simp only [generateCommitMessageWithKey]
  rw [if_neg (by simpa [List.length_eq_zero] using hne), hfail]

theorem withKey_of_collect_ok_empty (key : String) (rp : Repo)
    (remote : String → String → HttpResponse) (d : String)
    (hne : (selectChanges rp).1 ≠ [])
    (hok : collectDiffs rp (selectChanges rp).2 (selectChanges rp).1 "" = .ok d)
    (hw : trimStr d = "") :
    generateCommitMessageWithKey key (some rp) remote = .emptyDiff := by
  simp only [generateCommitMessageWithKey]
  rw [if_neg (by simpa [List.length_eq_zero] using hne), hok]
  simp [hw]

/-- C2: a non-empty staged (index) change list is always selected with
origin staged, whatever the working-tree list holds; only when the staged
list is empty is the working-tree list selected, with origin non-staged.
The origin flag determines which diff operation the aggregation uses:
with origin staged the aggregation depends only on `diffIndexWithHEAD`,
with origin non-staged only on `diffWithHEAD`. -/
theorem staged_changes_take_priority (rp rp' : Repo) :
    (rp.indexChanges ≠ [] → selectChanges rp = (rp.indexChanges, true)) ∧
    (rp.indexChanges = [] → selectChanges rp = (rp.workingTreeChanges, false)) ∧
    (rp.diffIndexWithHEAD = rp'.diffIndexWithHEAD →
      ∀ l acc, collectDiffs rp true l acc = collectDiffs rp' true l acc) ∧
    (rp.diffWithHEAD = rp'.diffWithHEAD →
      ∀ l acc, collectDiffs rp false l acc = collectDiffs rp' false l acc) := by
  refine ⟨fun h => ?_, fun h => ?_, collectDiffs_staged_congr rp rp', collectDiffs_workingTree_congr rp rp'⟩
  · simp [selectChanges, List.length_eq_zero, h]
  · simp [selectChanges, h]

/-- Witness for C2 at concrete repositories: a staged change wins over a
non-empty working-tree list, and the working-tree list is used when
nothing is staged. -/
theorem staged_changes_take_priority_witness :
    selectChanges exRepoMix = (["a.ts"], true) ∧
    selectChanges exRepoWT = (["b.ts"], false) :=
  ⟨(staged_changes_take_priority exRepoMix exRepoMix).1 (by simp [exRepoMix]),
   (staged_changes_take_priority exRepoWT exRepoWT).2.1 rfl⟩

/-- C5: when both change lists are empty the workflow fails with
NoChanges.  Zero diff calls and zero remote calls are expressed by the
statement holding for every repository with empty lists (whatever its two
diff operations do) and for every remote oracle: the outcome is the
constant `noChanges`, so neither collaborator is consulted.  Stated for
the panel flow under a resolvable key and for the toolbar core. -/
theorem noChanges_zero_calls (env : Option String) (apiKey key : String) (rp : Repo)
    (remote remote2 : String → String → HttpResponse)
    (h1 : rp.indexChanges = []) (h2 : rp.workingTreeChanges = [])
    (hk : finalApiKeyPanel env apiKey ≠ "") :
    generateCommitMessage env apiKey (some rp) remote = .noChanges ∧
    generateCommitMessageWithKey key (some rp) remote2 = .noChanges := by
  constructor
  · rw [generateCommitMessage_eq_withKey env apiKey _ remote hk]
    exact withKey_noChanges _ rp remote h1 h2
  · exact withKey_noChanges key rp remote2 h1 h2

/-- Witness for C5: spec scenario B at a concrete empty repository. -/
theorem noChanges_zero_calls_witness :
    generateCommitMessage none "k" (some exRepoEmpty) (fun _ _ => exRespOkA) = .noChanges ∧
    generateCommitMessageWithKey "k" (some exRepoEmpty) (fun _ _ => exResp403) = .noChanges :=
  noChanges_zero_calls none "k" "k" exRepoEmpty _ _ rfl rfl (by decide)

/-- C6: the aggregation visits the selected changes in provider order and
produces the concatenation, over all changes, of a file-marker line
followed by that file diff (refinement of `collectDiffs` against the spec
shape `aggregatedDiffSpec`); and spec scenario A end to end: staged
`a.ts` with diff `+x` aggregates to exactly the marker plus diff, and a
remote response with text `" feat: add x "` yields result
`"feat: add x"`. -/
theorem aggregation_order_and_format (rp : Repo) (isStaged : Bool) (f : String → String)
    (l : List String) (acc : String)
    (h : ∀ p ∈ l, (if isStaged then rp.diffIndexWithHEAD p else rp.diffWithHEAD p) = Except.ok (f p)) :
    collectDiffs rp isStaged l acc = .ok (acc ++ aggregatedDiffSpec f l) ∧
    collectDiffs exRepoA true ["a.ts"] "" = .ok "\n--- File: a.ts ---\n+x" ∧
    generateCommitMessage none "k" (some exRepoA) (fun _ _ => exRespOkA) = .ok "feat: add x" :=
  ⟨collectDiffs_all_ok rp isStaged f l acc h, rfl, rfl⟩

/-- Witness for C6 at the scenario-A repository. -/
theorem aggregation_order_and_format_witness :
    collectDiffs exRepoA true ["a.ts"] "" = .ok ("" ++ aggregatedDiffSpec (fun _ => "+x") ["a.ts"]) :=
  (aggregation_order_and_format exRepoA true (fun _ => "+x") ["a.ts"] "" (fun _ _ => rfl)).1

/-- C7: a failing diff fetch for any file of the selected set aborts the
whole aggregation (third conjunct), and an aborted aggregation makes the
workflow fail with DiffReadFailure with the same outcome for every remote
oracle, i.e. no remote call and no partial aggregate is ever sent. -/
theorem diff_failure_aborts (env : Option String) (apiKey key : String) (rp : Repo)
    (remote remote2 : String → String → HttpResponse) (l : List String) (acc p : String)
    (hk : finalApiKeyPanel env apiKey ≠ "")
    (hfail : collectDiffs rp (selectChanges rp).2 (selectChanges rp).1 "" = .error ()) :
    generateCommitMessage env apiKey (some rp) remote = .diffReadFailure ∧
    generateCommitMessageWithKey key (some rp) remote2 = .diffReadFailure ∧
    (p ∈ l → (if (selectChanges rp).2 then rp.diffIndexWithHEAD p else rp.diffWithHEAD p) = .error () →
      collectDiffs rp (selectChanges rp).2 l acc = .error ()) := by
  refine ⟨?_, withKey_of_collect_error key rp remote2 hfail,
    fun hp hf => collectDiffs_error_of_mem rp _ l acc p hp hf⟩
  rw [generateCommitMessage_eq_withKey env apiKey _ remote hk]
  exact withKey_of_collect_error _ rp remote hfail

/-- Witness for C7 at a repository whose staged diff operation fails. -/
theorem diff_failure_aborts_witness :
    generateCommitMessage none "k" (some exRepoFail) (fun _ _ => exRespOkA) = .diffReadFailure ∧
    generateCommitMessageWithKey "k" (some exRepoFail) (fun _ _ => exResp403) = .diffReadFailure :=
  ⟨(diff_failure_aborts none "k" "k" exRepoFail (fun _ _ => exRespOkA) (fun _ _ => exResp403)
      ["a.ts"] "" "a.ts" (by decide) rfl).1,
   (diff_failure_aborts none "k" "k" exRepoFail (fun _ _ => exRespOkA) (fun _ _ => exResp403)
      ["a.ts"] "" "a.ts" (by decide) rfl).2.1⟩

/-- C1 is false of the code: a toolbar invocation whose remote call fails
with HTTP 403 (body error message "invalid key") surfaces RemoteError but
leaves the stored key `gsk_k` in the secret store — nothing in the code
deletes the secret. -/
theorem auth_failure_keeps_stored_key_counterexample :
    generateCommitMessageForSCM
      { env := none, readOk := true, writeOk := true, store := some "gsk_k",
        promptInput := none, repo := some exRepoA } (fun _ _ => exResp403)
      = (.remoteError "Groq API Error: invalid key", some "gsk_k") ∧
    exResp403.status = 403 :=
  ⟨rfl, rfl⟩

/-- C1 (amended): the secret store after any toolbar invocation is either
unchanged or overwritten with a newly prompted key; whenever a key is
already resolvable (override or stored) the store is unchanged, whatever
the remote response status — in particular an authentication-class
failure never clears the persisted key (and the panel flow never touches
the store at all). -/
theorem stored_key_never_cleared (i : ScmInput) (remote : String → String → HttpResponse) :
    ((generateCommitMessageForSCM i remote).2 = i.store ∨
      ∃ inp, i.promptInput = some inp ∧ inp ≠ "" ∧
        (generateCommitMessageForSCM i remote).2 = storeApiKey i.writeOk i.store inp) ∧
    (∀ k, apiKeySCM i.env (getStoredApiKey i.readOk i.store) = some k →
      (generateCommitMessageForSCM i remote).2 = i.store) := by
  constructor
  · cases hk : apiKeySCM i.env (getStoredApiKey i.readOk i.store) with
    | some k => left; simp [generateCommitMessageForSCM, hk]
    | none =>
      cases hp : i.promptInput with
      | none => left; simp [generateCommitMessageForSCM, hk, hp]
      | some inp =>
        by_cases he : inp = ""
        · left; simp [generateCommitMessageForSCM, hk, hp, he]
        · right
          exact ⟨inp, rfl, he, by simp [generateCommitMessageForSCM, hk, hp, he]⟩
  · intro k hk
    simp [generateCommitMessageForSCM, hk]

/-- Witness for the amended C1: with a stored key present and a 403
response, the store is unchanged. -/
theorem stored_key_never_cleared_witness :
    (generateCommitMessageForSCM
      { env := none, readOk := true, writeOk := true, store := some "gsk_k",
        promptInput := none, repo := some exRepoA } (fun _ _ => exResp403)).2 = some "gsk_k" :=
  (stored_key_never_cleared _ _).2 "gsk_k" rfl

/-- C3 is false of the code in its annotation part: a 403 response and a
500 response with the same body produce identical failures, so the
failure carries no HTTP status annotation and the caller cannot
distinguish an authentication failure from any other failure. -/
theorem remoteError_not_annotated_counterexample :
    handleGroqResponse exResp403 = .error "invalid key" ∧
    handleGroqResponse exResp500 = .error "invalid key" ∧
    exResp403.status ≠ exResp500.status :=
  ⟨rfl, rfl, by decide⟩

/-- C3 (amended): the response handling order holds as claimed — non-ok
status fails with the parsed body error message when present and
non-empty, else the generic "HTTP status: statusText" message; an ok
status with a body error field fails with that message; missing or
whitespace-only generated text fails with the empty-response message; and
otherwise the result is the trimmed generated text — but the failure
carries only a message string, with no HTTP status annotation. -/
theorem response_handling_order (r : HttpResponse) (data : GroqBody) (e : GroqError)
    (m c pe : String) :
    (respOk r = false → r.body = .ok data → data.error = some e → e.message = some m → m ≠ "" →
      handleGroqResponse r = .error m) ∧
    (respOk r = false → r.body = .error pe →
      handleGroqResponse r = .error ("HTTP " ++ toString r.status ++ ": " ++ r.statusText)) ∧
    (respOk r = false → r.body = .ok data → data.error = none →
      handleGroqResponse r = .error ("HTTP " ++ toString r.status ++ ": " ++ r.statusText)) ∧
    (respOk r = true → r.body = .ok data → data.error = some e → e.message = some m → m ≠ "" →
      handleGroqResponse r = .error m) ∧
    (respOk r = true → r.body = .ok data → data.error = none → data.content = none →
      handleGroqResponse r = .error "API returned empty response.") ∧
    (respOk r = true → r.body = .ok data → data.error = none → data.content = some c → trimStr c = "" →
      handleGroqResponse r = .error "API returned empty response.") ∧
    (respOk r = true → r.body = .ok data → data.error = none → data.content = some c → trimStr c ≠ "" →
      handleGroqResponse r = .ok (trimStr c)) := by
  refine ⟨fun h1 h2 h3 h4 h5 => ?_, fun h1 h2 => ?_, fun h1 h2 h3 => ?_,
    fun h1 h2 h3 h4 h5 => ?_, fun h1 h2 h3 h4 => ?_, fun h1 h2 h3 h4 h5 => ?_,
    fun h1 h2 h3 h4 h5 => ?_⟩
  · simp [handleGroqResponse, h1, h2, h3, h4, h5]
  · simp [handleGroqResponse, h1, h2]
  · simp [handleGroqResponse, h1, h2, h3]
  · simp [handleGroqResponse, h1, h2, h3, h4, h5]
  · simp [handleGroqResponse, h1, h2, h3, h4]
  · simp [handleGroqResponse, h1, h2, h3, h4, h5]
  · simp [handleGroqResponse, h1, h2, h3, h4, h5]

/-- Witness for the amended C3: a non-ok response with a body error
message and an ok response with usable text, both concrete. -/
theorem response_handling_order_witness :
    handleGroqResponse exResp403 = Except.error "invalid key" ∧
    handleGroqResponse exRespOkA = Except.ok (trimStr " feat: add x ") :=
  ⟨(response_handling_order exResp403
      { error := some { message := some "invalid key" }, content := none }
      { message := some "invalid key" } "invalid key" "" "").1 rfl rfl rfl rfl (by decide),
   (response_handling_order exRespOkA
      { error := none, content := some " feat: add x " }
      { message := none } "" " feat: add x " "").2.2.2.2.2.2 rfl rfl rfl rfl (by decide)⟩

/-- C4 concerns a code bug: with a staged binary-only change whose text
diff is empty (spec scenario C), the aggregated blob still contains the
file-marker line, so its trim is not empty, the EmptyDiff guard cannot
fire, and the remote call IS made — two different remote responses give
two different outcomes, neither of which is `emptyDiff`.  The EmptyDiff
branch is unreachable whenever the selected change list is non-empty,
contradicting the intent stated by the code itself (its error text reads
"Changes may be binary files only"). -/
theorem emptyDiff_guard_dead_for_binary_only :
    generateCommitMessage none "k" (some exRepoBin) (fun _ _ => exRespOkA) = .ok "feat: add x" ∧
    generateCommitMessage none "k" (some exRepoBin) (fun _ _ => exResp403)
      = .remoteError "Groq API Error: invalid key" ∧
    trimStr "\n--- File: bin.png ---\n" = "--- File: bin.png ---" :=
  ⟨rfl, rfl, rfl⟩

/-- C8: the commit step refuses to commit, making no provider call (the
outcome is the same constant for every commit oracle), when the candidate
message is empty or whitespace-only, or when the provider reports zero
staged changes even with a non-empty message; otherwise the outcome is
exactly determined by the provider commit operation applied to the
trimmed message. -/
theorem commit_step_guards (message : String) (rp : Repo)
    (commit : String → Except String Unit) :
    (trimStr message = "" → ∀ (repo : Option Repo) (c : String → Except String Unit),
      commitChanges message repo c = .emptyMessage) ∧
    (trimStr message ≠ "" → rp.indexChanges = [] →
      ∀ c : String → Except String Unit, commitChanges message (some rp) c = .noStaged) ∧
    (trimStr message ≠ "" → rp.indexChanges ≠ [] →
      commitChanges message (some rp) commit =
        match commit (trimStr message) with
        | .ok _ => .committed (trimStr message)
        | .error e => .commitFailed e) := by
  refine ⟨fun h repo c => ?_, fun h1 h2 c => ?_, fun h1 h2 => ?_⟩
  · simp [commitChanges, h]
  · simp [commitChanges, h1, h2]
  · simp [commitChanges, h1, List.length_eq_zero, h2]

/-- Witness for C8: whitespace-only message refused, message with no
staged changes refused, and a commit invoked with the trimmed message. -/
theorem commit_step_guards_witness :
    commitChanges "   " (some exRepoA) (fun _ => .ok ()) = .emptyMessage ∧
    commitChanges "msg" (some exRepoWT) (fun _ => .ok ()) = .noStaged ∧
    commitChanges " msg " (some exRepoA) (fun _ => .ok ()) = .committed "msg" :=
  ⟨(commit_step_guards "   " exRepoA (fun _ => .ok ())).1 (by decide) (some exRepoA) _,
   (commit_step_guards "msg" exRepoWT (fun _ => .ok ())).2.1 (by decide) rfl _,
   (commit_step_guards " msg " exRepoA (fun _ => .ok ())).2.2 (by decide) (by simp [exRepoA])⟩

/-- C9: in both flows the environment override key, when non-empty after
trimming, is used as the credential unconditionally: the panel key
resolution returns the override itself and the whole panel flow collapses
to the shared core applied to the override (ignoring the user-entered
key); the toolbar key resolution returns the override whatever is stored,
and the whole toolbar flow collapses to the shared core applied to the
override with the store untouched.  Freshness per invocation is modelled
by the flows taking the environment as an input of every call. -/
theorem env_override_precedence (ov apiKey : String) (storedKey : Option String)
    (h : trimStr ov ≠ "") :
    finalApiKeyPanel (some ov) apiKey = ov ∧
    apiKeySCM (some ov) storedKey = some ov ∧
    (∀ (repo : Option Repo) (remote : String → String → HttpResponse),
      generateCommitMessage (some ov) apiKey repo remote
        = generateCommitMessageWithKey ov repo remote) ∧
    (∀ (i : ScmInput), i.env = some ov → ∀ remote,
      generateCommitMessageForSCM i remote
        = (generateCommitMessageWithKey ov i.repo remote, i.store)) := by
  have hov : finalApiKeyPanel (some ov) apiKey = ov := by simp [finalApiKeyPanel, h]
  refine ⟨hov, by simp [apiKeySCM, h], fun repo remote => ?_, fun i hi remote => ?_⟩
  · rw [generateCommitMessage_eq_withKey _ _ _ _ (by rw [hov]; exact trimStr_ne_empty h), hov]
  · simp [generateCommitMessageForSCM, hi, apiKeySCM, h]

/-- Witness for C9 at a concrete override, typed key and stored key. -/
theorem env_override_precedence_witness :
    finalApiKeyPanel (some "gsk_env") "typed" = "gsk_env" ∧
    apiKeySCM (some "gsk_env") (some "stored") = some "gsk_env" :=
  ⟨(env_override_precedence "gsk_env" "typed" (some "stored") (by decide)).1,
   (env_override_precedence "gsk_env" "typed" (some "stored") (by decide)).2.1⟩

/-- C10: every value written by `storeApiKey` is the trimmed input and is
non-empty (a whitespace-only input is silently skipped, leaving the store
unchanged), and `getStoredApiKey` never presents a whitespace-only key:
it returns a trimmed non-empty value or none, returns none on a read
failure, and returns none when the stored value trims to empty. -/
theorem api_key_store_invariant (writeOk readOk : Bool) (store : Option String) (key s k : String) :
    (trimStr key = "" → storeApiKey writeOk store key = store) ∧
    (trimStr key ≠ "" → storeApiKey true store key = some (trimStr key)) ∧
    (getStoredApiKey readOk store = some k → trimStr k = k ∧ k ≠ "") ∧
    (getStoredApiKey false store = none) ∧
    (store = some s → trimStr s = "" → getStoredApiKey readOk store = none) := by
  refine ⟨fun h => ?_, fun h => ?_, fun h => ?_, rfl, fun hs hw => ?_⟩
  · simp [storeApiKey, h]
  · simp [storeApiKey, h]
  · cases readOk with
    | false => simp [getStoredApiKey] at h
    | true =>
      cases store with
      | none => simp [getStoredApiKey] at h
      | some s0 =>
        by_cases hw : trimStr s0 = ""
        · simp [getStoredApiKey, hw] at h
        · simp [getStoredApiKey, hw] at h
          subst h
          exact ⟨trimStr_idem s0, hw⟩
  · subst hs
    cases readOk <;> simp [getStoredApiKey, hw]

/-- Witness for C10 at concrete store states and keys. -/
theorem api_key_store_invariant_witness :
    storeApiKey true (some "old") "   " = some "old" ∧
    storeApiKey true (some "old") " k1 " = some "k1" ∧
    getStoredApiKey true (some "  ") = none ∧
    getStoredApiKey false (some "k") = none :=
  ⟨(api_key_store_invariant true true (some "old") "   " "" "").1 (by decide),
   (api_key_store_invariant true true (some "old") " k1 " "" "").2.1 (by decide),
   (api_key_store_invariant true true (some "  ") "" "  " "").2.2.2.2 rfl (by decide),
   (api_key_store_invariant false false (some "k") "" "" "").2.2.2.1⟩

end DiffDraft
